import Mathlib

/-!
Verification of the flash-learning-cards backend (Backend/server.js).

The development shallowly embeds the text-extraction pipeline
(`extractText`) and the structured-generation adapter
(`generateFlashcardsAI`, `generateQuizAI`) of the server.  External
capabilities (the Gemini model, the JSON.parse builtin where noted,
axios fetch, cheerio, pdf-parse, mammoth) are passed in as oracle
function parameters; everything the JavaScript source computes itself
(clamping, guards, truncation, bracket boundary extraction, slicing,
string trimming, the URL binary-extension regex, parseInt defaulting)
is translated into executable Lean definitions.
-/

set_option maxRecDepth 4000

namespace FlashLearn

/-- JSON values as produced by the JSON.parse builtin.  Numbers are
modelled as integers; fractional and exponent literals are outside the
model (none of the verified behaviours depends on them). -/
inductive Json where
  | null : Json
  | bool (b : Bool) : Json
  | num (n : Int) : Json
  | str (s : String) : Json
  | arr (elems : List Json) : Json
  | obj (fields : List (String × Json)) : Json

/-- The characters treated as whitespace by JavaScript String.prototype.trim
and by the regular-expression class \s (ECMA WhiteSpace plus LineTerminator). -/
def jsWhitespace (c : Char) : Bool :=
  c == ' ' || c == '\t' || c == '\n' || c == '\r' ||
  c == Char.ofNat 11 || c == Char.ofNat 12 || c == Char.ofNat 160 ||
  c == Char.ofNat 5760 || (8192 ≤ c.toNat && c.toNat ≤ 8202) ||
  c == Char.ofNat 8232 || c == Char.ofNat 8233 || c == Char.ofNat 8239 ||
  c == Char.ofNat 8287 || c == Char.ofNat 12288 || c == Char.ofNat 65279

/-- JavaScript String.prototype.trim. -/
def jsTrim (s : String) : String :=
  String.mk (((s.data.dropWhile jsWhitespace).reverse.dropWhile jsWhitespace).reverse)

/-- Index of the first occurrence of a character in a character list. -/
def firstIdxChar (c : Char) : List Char → Option Nat
  | [] => none
  | a :: l => if a = c then some 0 else (firstIdxChar c l).map (· + 1)

/-- Index of the last occurrence of a character in a character list. -/
def lastIdxChar (c : Char) (l : List Char) : Option Nat :=
  (firstIdxChar c l.reverse).map (fun i => l.length - 1 - i)

/-- JavaScript String.prototype.indexOf for a single character (-1 if absent). -/
def jsIndexOfChar (s : String) (c : Char) : Int :=
  match firstIdxChar c s.data with
  | none => -1
  | some i => (i : Int)

/-- JavaScript String.prototype.lastIndexOf for a single character (-1 if absent). -/
def jsLastIndexOfChar (s : String) (c : Char) : Int :=
  match lastIdxChar c s.data with
  | none => -1
  | some i => (i : Int)

/-- JavaScript String.prototype.substring(start, stop) for
0 ≤ start ≤ stop: the characters in positions [start, stop). -/
def jsSubstring (s : String) (start stop : Nat) : String :=
  String.mk ((s.data.drop start).take (stop - start))

/-- JavaScript s.substring(0, n). -/
def jsTake (s : String) (n : Nat) : String :=
  jsSubstring s 0 n

/-- Boolean test that the first list is an initial segment of the second. -/
def listHasPrefixB : List Char → List Char → Bool
  | [], _ => true
  | _ :: _, [] => false
  | a :: as, b :: bs => a == b && listHasPrefixB as bs

/-- JavaScript String.prototype.startsWith. -/
def jsStartsWith (s pre : String) : Bool :=
  listHasPrefixB pre.data s.data

/-- Boolean substring containment on character lists. -/
def listContainsSubB (sub : List Char) : List Char → Bool
  | [] => listHasPrefixB sub []
  | a :: l => listHasPrefixB sub (a :: l) || listContainsSubB sub l

/-- JavaScript String.prototype.includes. -/
def strContainsSubB (s sub : String) : Bool :=
  listContainsSubB sub.data s.data

/-- JavaScript String.prototype.toLowerCase (ASCII range; the characters the
server compares after lowercasing are all ASCII). -/
def strToLower (s : String) : String :=
  String.mk (s.data.map Char.toLower)

/-- JavaScript String.prototype.endsWith. -/
def strEndsWithB (s suf : String) : Bool :=
  listHasPrefixB suf.data.reverse s.data.reverse

/-- JSON insignificant whitespace. -/
def jsonWs (c : Char) : Bool :=
  c == ' ' || c == '\t' || c == '\n' || c == '\r'

/-- Left brace character, written by code point. -/
def lbrace : Char := Char.ofNat 123

/-- Right brace character, written by code point. -/
def rbrace : Char := Char.ofNat 125

/-- Value of one hexadecimal digit. -/
def hexVal? (c : Char) : Option Nat :=
  if '0' ≤ c ∧ c ≤ '9' then some (c.toNat - 48)
  else if 'a' ≤ c ∧ c ≤ 'f' then some (c.toNat - 97 + 10)
  else if 'A' ≤ c ∧ c ≤ 'F' then some (c.toNat - 65 + 10)
  else none

/-- Decimal digit test. -/
def isDigitCh (c : Char) : Bool := '0' ≤ c && c ≤ '9'

/-- Body of a JSON string literal, after the opening quote: returns the
decoded characters and the remaining input after the closing quote. -/
def parseJsonStringBody : List Char → Option (List Char × List Char)
  | [] => none
  | c :: rest =>
    if c = '"' then some ([], rest)
    else if c = '\\' then
      match rest with
      | [] => none
      | e :: rest2 =>
        if e = 'u' then
          match rest2 with
          | h1 :: h2 :: h3 :: h4 :: rest3 =>
            match hexVal? h1, hexVal? h2, hexVal? h3, hexVal? h4 with
            | some v1, some v2, some v3, some v4 =>
              (parseJsonStringBody rest3).map (fun r =>
                (Char.ofNat (((v1 * 16 + v2) * 16 + v3) * 16 + v4) :: r.1, r.2))
            | _, _, _, _ => none
          | _ => none
        else
          let ec : Option Char :=
            if e = '"' then some '"'
            else if e = '\\' then some '\\'
            else if e = '/' then some '/'
            else if e = 'b' then some (Char.ofNat 8)
            else if e = 'f' then some (Char.ofNat 12)
            else if e = 'n' then some '\n'
            else if e = 'r' then some '\r'
            else if e = 't' then some '\t'
            else none
          match ec with
          | none => none
          | some d => (parseJsonStringBody rest2).map (fun r => (d :: r.1, r.2))
    else if c.toNat < 32 then none
    else (parseJsonStringBody rest).map (fun r => (c :: r.1, r.2))

/-- A JSON integer literal (an optional minus sign followed by digits with
no redundant leading zero; fraction and exponent forms are outside the model). -/
def parseJsonNumber (cs : List Char) : Option (Int × List Char) :=
  let p := match cs with
    | '-' :: r => (true, r)
    | _ => (false, cs)
  let digits := p.2.takeWhile isDigitCh
  let rest := p.2.dropWhile isDigitCh
  if digits = [] then none
  else if 1 < digits.length ∧ digits.head? = some '0' then none
  else
    match rest with
    | '.' :: _ => none
    | 'e' :: _ => none
    | 'E' :: _ => none
    | _ =>
      let v : Nat := digits.foldl (fun acc c => acc * 10 + (c.toNat - 48)) 0
      some (if p.1 then -(v : Int) else (v : Int), rest)

mutual

/-- One JSON value, fuelled recursive descent. -/
def parseJsonVal : Nat → List Char → Option (Json × List Char)
  | 0, _ => none
  | Nat.succ fuel, cs =>
    match cs.dropWhile jsonWs with
    | [] => none
    | c :: rest =>
      if c = 'n' then
        match rest with
        | 'u' :: 'l' :: 'l' :: r => some (Json.null, r)
        | _ => none
      else if c = 't' then
        match rest with
        | 'r' :: 'u' :: 'e' :: r => some (Json.bool true, r)
        | _ => none
      else if c = 'f' then
        match rest with
        | 'a' :: 'l' :: 's' :: 'e' :: r => some (Json.bool false, r)
        | _ => none
      else if c = '"' then
        (parseJsonStringBody rest).map (fun r => (Json.str (String.mk r.1), r.2))
      else if c = '[' then
        match rest.dropWhile jsonWs with
        | ']' :: r => some (Json.arr [], r)
        | _ => parseJsonItems fuel rest []
      else if c = lbrace then
        match rest.dropWhile jsonWs with
        | [] => none
        | r0 :: r =>
          if r0 = rbrace then some (Json.obj [], r)
          else parseJsonFields fuel rest []
      else
        (parseJsonNumber (c :: rest)).map (fun r => (Json.num r.1, r.2))

/-- Comma-separated array items up to the closing bracket. -/
def parseJsonItems : Nat → List Char → List Json → Option (Json × List Char)
  | 0, _, _ => none
  | Nat.succ fuel, cs, acc =>
    match parseJsonVal fuel cs with
    | none => none
    | some (v, rest) =>
      match rest.dropWhile jsonWs with
      | [] => none
      | c :: r =>
        if c = ',' then parseJsonItems fuel r (v :: acc)
        else if c = ']' then some (Json.arr (v :: acc).reverse, r)
        else none

/-- Comma-separated object members up to the closing brace. -/
def parseJsonFields : Nat → List Char → List (String × Json) → Option (Json × List Char)
  | 0, _, _ => none
  | Nat.succ fuel, cs, acc =>
    match cs.dropWhile jsonWs with
    | [] => none
    | q :: rest =>
      if q = '"' then
        match parseJsonStringBody rest with
        | none => none
        | some (key, rest2) =>
          match rest2.dropWhile jsonWs with
          | ':' :: rest3 =>
            match parseJsonVal fuel rest3 with
            | none => none
            | some (v, rest4) =>
              match rest4.dropWhile jsonWs with
              | [] => none
              | c :: r =>
                if c = ',' then parseJsonFields fuel r ((String.mk key, v) :: acc)
                else if c = rbrace then
                  some (Json.obj ((String.mk key, v) :: acc).reverse, r)
                else none
          | _ => none
      else none

end

/-- The JSON.parse builtin applied to a whole string: a single value with
only whitespace around it, rejected otherwise. -/
def jsonParse (s : String) : Option Json :=
  match parseJsonVal (s.data.length + 1) s.data with
  | none => none
  | some (v, rest) => if rest.dropWhile jsonWs = [] then some v else none

/-- Classified errors thrown by the generation functions.  The route
handlers only forward the message string; the constructor records which
throw site produced it. -/
inductive GenError where
  | serviceUnavailable (msg : String)
  | emptyModelResponse (msg : String)
  | malformedResponse (msg : String)

/-- Line 92 of the server: Math.max(3, Math.min(25, maxCards)). -/
def clampCards (maxCards : Int) : Int := max 3 (min 25 maxCards)

/-- Line 125 of the server: Math.max(3, Math.min(15, numQuestions)). -/
def clampQuiz (numQuestions : Int) : Int := max 3 (min 15 numQuestions)

/-- The MAX_TEXT_LENGTH constant of both generation functions. -/
def MAX_TEXT_LENGTH : Nat := 25000

/-- The single placeholder record returned for too-short flashcard input. -/
def flashcardPlaceholder : Json :=
  Json.obj [("front", Json.str "Kein Inhalt?"), ("back", Json.str "Text zu kurz.")]

/-- Text of the flashcard prompt before the card count. -/
def flashcardPromptA : String := "Erstelle Lernkarten (Flashcards)... Erstelle maximal "

/-- Text of the flashcard prompt between the card count and the source text. -/
def flashcardPromptB : String := " Lernkarten... Text: --- "

/-- Text of the flashcard prompt after the source text. -/
def flashcardPromptC : String := " --- JSON-Array:"

/-- The flashcard prompt template literal of line 95. -/
def flashcardPrompt (numCards : Int) (truncatedText : String) : String :=
  flashcardPromptA ++ toString numCards ++ flashcardPromptB ++ truncatedText ++ flashcardPromptC

/-- Text of the quiz prompt before the question count. -/
def quizPromptA : String :=
  "\n        Erstelle basierend auf dem folgenden Text ein Multiple-Choice-Quiz mit Mehrfachauswahlmöglichkeit.\n        Zielgruppe: Lernende, die den Inhalt des Textes verstehen und überprüfen möchten.\n        Anforderungen:\n        1.  Generiere genau "

/-- Text of the quiz prompt between the question count and the source text. -/
def quizPromptB : String :=
  " Fragen.\n        2.  Jede Frage muss sich klar auf wichtige Informationen oder Schlüsselkonzepte im Text beziehen.\n        3.  Formuliere die Fragen klar und eindeutig. Es kann EINE oder MEHRERE korrekte Antworten geben.\n        4.  Erstelle für jede Frage genau 4 Antwortoptionen (ein Array von Strings).\n        5.  Mindestens EINE der vier Optionen muss korrekt sein.\n        6.  Die falschen Antwortoptionen (Distraktoren) müssen plausibel klingen, aber eindeutig falsch sein.\n        7.  Gib das Ergebnis ausschließlich als JSON-Array zurück. Jedes Objekt im Array repräsentiert eine Frage und muss exakt die folgende Struktur haben:\n            \x7b\n              \"question\": \"Die Frage als String.\",\n              \"options\": [\"Antwort A\", \"Antwort B\", \"Antwort C\", \"Antwort D\"],\n              \"correctAnswerIndices\": [index1, index2, ...] // Array mit den Indizes (0-3) ALLER korrekten Antworten.\n            \x7d\n        8.  Stelle sicher, dass das gesamte Ergebnis valides JSON ist. Strings dürfen keine unmaskierten Zeilenumbrüche enthalten.\n\n        Text:\n        ---\n        "

/-- Text of the quiz prompt after the source text. -/
def quizPromptC : String :=
  "\n        ---\n\n        JSON-Array mit Quizfragen (Mehrfachauswahl möglich):\n    "

/-- The quiz prompt template literal of lines 137-161. -/
def quizPrompt (numberOfQuestions : Int) (truncatedText : String) : String :=
  quizPromptA ++ toString numberOfQuestions ++ quizPromptB ++ truncatedText ++ quizPromptC

/-- The prompt string generateFlashcardsAI hands to the model: the clamped
count and the input truncated to MAX_TEXT_LENGTH characters (lines 92-95). -/
def flashcardPromptUsed (textContent : String) (maxCards : Int) : String :=
  flashcardPrompt (clampCards maxCards) (jsTake textContent MAX_TEXT_LENGTH)

/-- The prompt string generateQuizAI hands to the model (lines 125-161). -/
def quizPromptUsed (textContent : String) (numQuestions : Int) : String :=
  quizPrompt (clampQuiz numQuestions) (jsTake textContent MAX_TEXT_LENGTH)

/-- Boundary extraction shared by both generation functions (lines 102-104
and 185-190): the substring from the first left bracket to the last right
bracket inclusive, or none when the indexOf/lastIndexOf checks fail. -/
def extractJsonArrayString (s : String) : Option String :=
  let startIndex := jsIndexOfChar s '['
  let endIndex := jsLastIndexOfChar s ']'
  if startIndex = -1 ∨ endIndex = -1 ∨ endIndex < startIndex then none
  else some (jsSubstring s startIndex.toNat (endIndex.toNat + 1))

/-- Parse phase of generateFlashcardsAI (lines 105-107): the inner catch
wraps any parse-stage throw in the nicht-lesbar message. -/
def flashcardAfterParse (parsed : Option Json) (numCards : Int) :
    Except GenError (List Json) :=
  match parsed with
  | none => Except.error (GenError.malformedResponse
      "KI-Antwort (Flashcards) nicht lesbar: JSON-Parsefehler.")
  | some (Json.arr flashcards) => Except.ok (flashcards.take numCards.toNat)
  | some _ => Except.error (GenError.malformedResponse
      "KI-Antwort (Flashcards) nicht lesbar: KI-Antwort (Flashcards) kein Array.")

/-- Reply handling of generateFlashcardsAI after a non-empty model reply
(lines 101-107). -/
def flashcardHandleReply (aiTextResponse : String) (numCards : Int) :
    Except GenError (List Json) :=
  match extractJsonArrayString aiTextResponse with
  | none => Except.error (GenError.malformedResponse
      "KI-Antwort (Flashcards) nicht lesbar: KI-Antwort (Flashcards) ohne JSON-Array.")
  | some jsonString => flashcardAfterParse (jsonParse jsonString) numCards

/-- The generateFlashcardsAI function (lines 90-109).  The model capability
is an oracle from the prompt to an optional raw reply text; none models a
reply with no usable candidate content. -/
def generateFlashcardsAI (available : Bool) (textContent : String) (maxCards : Int)
    (model : String → Option String) : Except GenError (List Json) :=
  if available = false then
    Except.error (GenError.serviceUnavailable "KI-Dienst (Flashcard) nicht verfügbar.")
  else
    let numCards := clampCards maxCards
    if textContent = "" ∨ (jsTrim textContent).length < 10 then
      Except.ok [flashcardPlaceholder]
    else
      match model (flashcardPromptUsed textContent maxCards) with
      | none => Except.error (GenError.emptyModelResponse
          "Keine gültige KI-Antwort (Flashcards).")
      | some aiTextResponse => flashcardHandleReply aiTextResponse numCards

/-- JavaScript typeof x === 'string' on an optional field value. -/
def typeofIsString : Option Json → Bool
  | some (Json.str _) => true
  | _ => false

/-- Array.isArray view of an optional field value. -/
def asJsonArr : Option Json → Option (List Json)
  | some (Json.arr xs) => some xs
  | _ => none

/-- JavaScript property read q[k] for the plain data keys the validation
uses; none is the undefined result (missing key, primitive receiver). -/
def jsGetField (q : Json) (k : String) : Option Json :=
  match q with
  | Json.obj fields => (fields.reverse.find? (fun p => p.1 == k)).map Prod.snd
  | _ => none

/-- typeof idx === 'number' && idx >= 0 && idx <= 3 for one array element. -/
def validIdxJson : Json → Bool
  | Json.num n => decide (0 ≤ n) && decide (n ≤ 3)
  | _ => false

/-- The advisory warning condition of lines 198-203 on the first record. -/
def quizRecordSuspect (q : Json) : Bool :=
  !(typeofIsString (jsGetField q "question")) ||
  (match asJsonArr (jsGetField q "options") with
   | none => true
   | some opts => opts.length != 4) ||
  (match asJsonArr (jsGetField q "correctAnswerIndices") with
   | none => true
   | some idxs => idxs.length == 0 || !(idxs.all validIdxJson))

/-- The validation block of lines 196-208.  Reading a property of a null
first record throws a TypeError in JavaScript (error value); otherwise
the suspect condition is only computed for the console warning. -/
def quizShapeCheck : List Json → Except Unit Bool
  | [] => Except.ok false
  | q :: _ =>
    match q with
    | Json.null => Except.error ()
    | _ => Except.ok (quizRecordSuspect q)

/-- Parse phase of generateQuizAI (lines 192-217): the inner catch wraps
any parse-stage throw, including the validation TypeError, in the
Konnte-das-Quiz message. -/
def quizAfterParse (parsed : Option Json) (numberOfQuestions : Int) :
    Except GenError (List Json) :=
  match parsed with
  | none => Except.error (GenError.malformedResponse
      "Konnte das Quiz aus der KI-Antwort nicht korrekt extrahieren: JSON-Parsefehler.")
  | some (Json.arr quizQuestions) =>
    match quizShapeCheck quizQuestions with
    | Except.error _ => Except.error (GenError.malformedResponse
        "Konnte das Quiz aus der KI-Antwort nicht korrekt extrahieren: TypeError: Eigenschaftszugriff auf null.")
    | Except.ok _warned => Except.ok (quizQuestions.take numberOfQuestions.toNat)
  | some _ => Except.error (GenError.malformedResponse
      "Konnte das Quiz aus der KI-Antwort nicht korrekt extrahieren: AI quiz response was not a valid JSON array.")

/-- Reply handling of generateQuizAI after a non-empty model reply
(lines 184-218). -/
def quizHandleReply (aiTextResponse : String) (numberOfQuestions : Int) :
    Except GenError (List Json) :=
  match extractJsonArrayString aiTextResponse with
  | none => Except.error (GenError.malformedResponse
      "Konnte das Quiz aus der KI-Antwort nicht korrekt extrahieren: KI-Antwort (Quiz) ohne JSON-Array.")
  | some jsonString => quizAfterParse (jsonParse jsonString) numberOfQuestions

/-- The generateQuizAI function (lines 119-224). -/
def generateQuizAI (available : Bool) (textContent : String) (numQuestions : Int)
    (model : String → Option String) : Except GenError (List Json) :=
  if available = false then
    Except.error (GenError.serviceUnavailable
      "KI-Dienst (Quiz) ist nicht verfügbar (API-Schlüssel fehlt?).")
  else
    let numberOfQuestions := clampQuiz numQuestions
    if textContent = "" ∨ (jsTrim textContent).length < 50 then
      Except.ok []
    else
      match model (quizPromptUsed textContent numQuestions) with
      | none => Except.error (GenError.emptyModelResponse
          "Keine gültige Quiz-Antwort von der KI erhalten.")
      | some aiTextResponse => quizHandleReply aiTextResponse numberOfQuestions

/-- Success test on an Except value. -/
def isOkE {ε α : Type} : Except ε α → Bool
  | Except.ok _ => true
  | Except.error _ => false

/-- The Unicode replacement character. -/
def replacementChar : Char := Char.ofNat 0xFFFD

/-- UTF-8 continuation byte test. -/
def isUtf8Cont (b : UInt8) : Bool := 0x80 ≤ b && b ≤ 0xBF

/-- Fuelled worker for the UTF-8 decoding; each step consumes at least one
byte, so fuel equal to the buffer length suffices. -/
def utf8DecodeGo : Nat → List UInt8 → List Char
  | 0, _ => []
  | Nat.succ fuel, l =>
    match l with
    | [] => []
    | b :: rest =>
      if b ≤ 0x7F then Char.ofNat b.toNat :: utf8DecodeGo fuel rest
      else if b ≤ 0xC1 then replacementChar :: utf8DecodeGo fuel rest
      else if b ≤ 0xDF then
        match rest with
        | [] => [replacementChar]
        | b2 :: rest2 =>
          if isUtf8Cont b2 then
            Char.ofNat ((b.toNat - 0xC0) * 64 + (b2.toNat - 0x80)) :: utf8DecodeGo fuel rest2
          else replacementChar :: utf8DecodeGo fuel rest
      else if b ≤ 0xEF then
        match rest with
        | [] => [replacementChar]
        | b2 :: rest2 =>
          if (if b = 0xE0 then 0xA0 else 0x80) ≤ b2 ∧ b2 ≤ (if b = 0xED then 0x9F else 0xBF) then
            match rest2 with
            | [] => [replacementChar, replacementChar]
            | b3 :: rest3 =>
              if isUtf8Cont b3 then
                Char.ofNat ((b.toNat - 0xE0) * 4096 + (b2.toNat - 0x80) * 64 + (b3.toNat - 0x80)) ::
                  utf8DecodeGo fuel rest3
              else replacementChar :: utf8DecodeGo fuel rest2
          else replacementChar :: utf8DecodeGo fuel rest
      else if b ≤ 0xF4 then
        match rest with
        | [] => [replacementChar]
        | b2 :: rest2 =>
          if (if b = 0xF0 then 0x90 else 0x80) ≤ b2 ∧ b2 ≤ (if b = 0xF4 then 0x8F else 0xBF) then
            match rest2 with
            | [] => [replacementChar, replacementChar]
            | b3 :: rest3 =>
              if isUtf8Cont b3 then
                match rest3 with
                | [] => [replacementChar, replacementChar, replacementChar]
                | b4 :: rest4 =>
                  if isUtf8Cont b4 then
                    Char.ofNat ((b.toNat - 0xF0) * 262144 + (b2.toNat - 0x80) * 4096 +
                        (b3.toNat - 0x80) * 64 + (b4.toNat - 0x80)) :: utf8DecodeGo fuel rest4
                  else replacementChar :: utf8DecodeGo fuel rest3
              else replacementChar :: utf8DecodeGo fuel rest2
          else replacementChar :: utf8DecodeGo fuel rest
      else replacementChar :: utf8DecodeGo fuel rest

/-- Buffer.prototype.toString with encoding utf-8: total WHATWG-style
decoding in which every invalid byte starts a replacement character.
This conversion never throws, which is why the catch branch of the
text/plain case of extractText is dead code. -/
def utf8DecodeReplace (buffer : List UInt8) : List Char :=
  utf8DecodeGo (buffer.length + 1) buffer

/-- Outcome of the axios.get call (line 77): a delivered response, or the
error classes the catch block of line 85 distinguishes. -/
inductive FetchOutcome where
  | resp (status : Int) (contentType : Option String) (body : String) (bodyIsString : Bool)
  | timeout
  | httpError (status : Int)
  | noResponse
  | other (msg : String)

/-- The binary-extension alternatives of the regular expression on line 76. -/
def binaryExtList : List String :=
  [".jpg", ".jpeg", ".png", ".gif", ".mp3", ".mp4", ".zip", ".exe", ".dmg"]

/-- The test of line 76: the regular expression is anchored at the end of
the whole URL string and is case-insensitive. -/
def urlHasBinaryExt (url : String) : Bool :=
  binaryExtList.any (fun e => strEndsWithB (strToLower url) e)

/-- Modelled from the spec: the URL path is the part of the URL before any
query or fragment; the spec applies the binary-extension test to it. -/
def specUrlPath (url : String) : String :=
  String.mk (url.data.takeWhile (fun c => !(c == '?' || c == '#')))

/-- Modelled from the spec: the path of the URL ends in a binary extension. -/
def specPathEndsInBinaryExt (url : String) : Bool :=
  urlHasBinaryExt (specUrlPath url)

/-- Fuelled worker for the whitespace-run collapsing; each step consumes
at least one character, so fuel equal to the text length suffices. -/
def collapseWsGo : Nat → List Char → List Char
  | 0, _ => []
  | Nat.succ fuel, l =>
    match l with
    | [] => []
    | a :: rest =>
      if jsWhitespace a then
        match rest with
        | [] => [a]
        | b :: rest2 =>
          if jsWhitespace b then ' ' :: collapseWsGo fuel (rest2.dropWhile jsWhitespace)
          else a :: collapseWsGo fuel (b :: rest2)
      else a :: collapseWsGo fuel rest

/-- text.replace with the pattern of two-or-more whitespace characters
replaced by a single space (line 81): a run of length at least two becomes
one space, an isolated whitespace character stays itself. -/
def collapseWsRuns (l : List Char) : List Char :=
  collapseWsGo (l.length + 1) l

/-- The URL branch of extractText (lines 72-85).  The fetch oracle models
axios.get; the cheerio oracle models loading the HTML, removing the
non-content elements and taking the first non-empty text of the candidate
selector chain of line 81. -/
def extractTextUrl (url : String) (fetch : String → FetchOutcome)
    (cheerioText : String → String) : Except String String :=
  if url = "" ∨ jsStartsWith url "http" = false then
    Except.error "URL Fehler: Ungültige URL."
  else if urlHasBinaryExt url then
    Except.ok ("[Binärdatei (" ++ url ++ ")]")
  else
    match fetch url with
    | FetchOutcome.timeout => Except.error "URL Timeout."
    | FetchOutcome.httpError st => Except.error ("URL Fehler: Status " ++ toString st)
    | FetchOutcome.noResponse => Except.error "URL Fehler: Keine Antwort."
    | FetchOutcome.other m => Except.error ("URL Fehler: " ++ m)
    | FetchOutcome.resp status contentType body bodyIsString =>
      if 400 ≤ status then
        Except.error ("URL Fehler: URL Fehler: Status " ++ toString status)
      else
        let ct := contentType.getD ""
        if ct == "" || !(strContainsSubB (strToLower ct) "html") then
          if strContainsSubB (strToLower ct) "text/plain" && bodyIsString then
            Except.ok (jsSubstring body 0 5000)
          else
            Except.ok ("[Kein HTML (" ++
              (match contentType with
               | none => "undefined"
               | some c => c) ++ ")]")
        else
          let text := jsTrim (String.mk (collapseWsRuns (cheerioText body).data))
          if text.length = 0 then Except.ok "[Kein Text von URL extrahiert.]"
          else Except.ok text

/-- The file branch of extractText (lines 66-71).  The pdf-parse and
mammoth capabilities are oracles from the byte buffer to extracted text
or failure. -/
def extractTextFile (mimetype : String) (buffer : List UInt8)
    (pdfExtract : List UInt8 → Option String)
    (docxExtract : List UInt8 → Option String) : Except String String :=
  if mimetype = "text/plain" then
    Except.ok (String.mk (utf8DecodeReplace buffer))
  else if mimetype = "application/pdf" then
    match pdfExtract buffer with
    | some t => Except.ok t
    | none => Except.error "PDF-Verarbeitung fehlgeschlagen."
  else if mimetype = "application/vnd.openxmlformats-officedocument.wordprocessingml.document" then
    match docxExtract buffer with
    | some t => Except.ok t
    | none => Except.error "DOCX-Verarbeitung fehlgeschlagen."
  else Except.error ("Nicht unterstützter Dateityp: " ++ mimetype)

/-- The text branch of extractText (line 65): data || with the empty
string as default; no trimming happens here. -/
def extractTextInline (data : Option String) : String :=
  match data with
  | none => ""
  | some s => if s = "" then "" else s

/-- Typed input to extractText; file input always carries its buffer
(multer memory storage guarantees data.buffer for accepted uploads). -/
inductive ExtractInput where
  | text (data : Option String)
  | file (mimetype : String) (buffer : List UInt8)
  | url (u : String)
  | other

/-- The extractText dispatcher (lines 63-87). -/
def extractText (input : ExtractInput)
    (pdfExtract docxExtract : List UInt8 → Option String)
    (fetch : String → FetchOutcome) (cheerioText : String → String) :
    Except String String :=
  match input with
  | ExtractInput.text d => Except.ok (extractTextInline d)
  | ExtractInput.file m buf => extractTextFile m buf pdfExtract docxExtract
  | ExtractInput.url u => extractTextUrl u fetch cheerioText
  | ExtractInput.other => Except.error "Ungültiger Input-Typ."

/-- The inline-text handling of the /api/generate route (line 232): the
request is rejected when textData is absent or trims to the empty string,
and otherwise the raw (untrimmed) string is passed to extractText. -/
def apiGenerateText (textData : Option String) : Except String String :=
  match textData with
  | none => Except.error "Kein Text."
  | some s =>
    if jsTrim s = "" then Except.error "Kein Text."
    else Except.ok (extractTextInline (some s))

/-- Value of one digit character in the given base, if any. -/
def digitValBase? (base : Nat) (c : Char) : Option Nat :=
  match hexVal? c with
  | none => none
  | some v => if v < base then some v else none

/-- The JavaScript parseInt builtin with no radix argument, on an optional
string (none models an absent request field): leading ECMA whitespace is
skipped, an optional sign is read, a 0x prefix selects base 16, and the
longest digit run is converted; none models the NaN result. -/
def jsParseInt (s : Option String) : Option Int :=
  match s with
  | none => none
  | some str =>
    let cs := str.data.dropWhile jsWhitespace
    let p := match cs with
      | '-' :: r => (true, r)
      | '+' :: r => (false, r)
      | _ => (false, cs)
    let q := match p.2 with
      | '0' :: 'x' :: r => (16, r)
      | '0' :: 'X' :: r => (16, r)
      | _ => (10, p.2)
    let digits := q.2.takeWhile (fun c => (digitValBase? q.1 c).isSome)
    if digits = [] then none
    else
      let v : Nat := digits.foldl (fun acc c => acc * q.1 + (digitValBase? q.1 c).getD 0) 0
      some (if p.1 then -(v : Int) else (v : Int))

/-- JavaScript x || d for a parseInt result: NaN and 0 are falsy, so both
fall back to the default. -/
def jsOrDefault (v : Option Int) (d : Int) : Int :=
  match v with
  | none => d
  | some n => if n = 0 then d else n

/-- The maxCards computation of the /api/generate route (line 231). -/
def apiMaxCards (param : Option String) : Int :=
  jsOrDefault (jsParseInt param) 15

/-- The numQuestions computation of the /api/generate-quiz route (line 236). -/
def apiNumQuestions (param : Option String) : Int :=
  jsOrDefault (jsParseInt param) 5

/-- Whether the first parsed record is not the JSON null value (the only
first-record shape for which the quiz validation block can throw). -/
def headNotNull : List Json → Bool
  | [] => true
  | Json.null :: _ => false
  | _ :: _ => true

/-- A sixty-character input text whose trimmed length passes both guards. -/
def longText60 : String :=
  "abcdefghijklmnopqrstuvwxyzabcdefghijklmnopqrstuvwxyzabcdefgh"

/-- A text of 25001 characters, above the MAX_TEXT_LENGTH bound. -/
def longText25001 : String := String.mk (List.replicate 25001 'a')

/-! Helper lemmas about the embedded operations. -/

theorem jsTrim_empty : (jsTrim "").length = 0 := rfl

theorem flashGuardFalse (t : String) (h : 10 ≤ (jsTrim t).length) :
    ¬(t = "" ∨ (jsTrim t).length < 10) := by
  rintro (rfl | hlt)
  · rw [jsTrim_empty] at h
    omega
  · omega

theorem quizGuardFalse (t : String) (h : 50 ≤ (jsTrim t).length) :
    ¬(t = "" ∨ (jsTrim t).length < 50) := by
  rintro (rfl | hlt)
  · rw [jsTrim_empty] at h
    omega
  · omega

theorem generateFlashcardsAI_guard (t : String) (c : Int) (m : String → Option String)
    (h : (jsTrim t).length < 10) :
    generateFlashcardsAI true t c m = Except.ok [flashcardPlaceholder] := by
  simp only [generateFlashcardsAI]
  rw [if_neg (by simp : ¬(true = false)), if_pos (Or.inr h)]

theorem generateQuizAI_guard (t : String) (c : Int) (m : String → Option String)
    (h : (jsTrim t).length < 50) :
    generateQuizAI true t c m = Except.ok [] := by
  simp only [generateQuizAI]
  rw [if_neg (by simp : ¬(true = false)), if_pos (Or.inr h)]

theorem generateFlashcardsAI_main (t : String) (c : Int) (m : String → Option String)
    (h : 10 ≤ (jsTrim t).length) :
    generateFlashcardsAI true t c m =
      match m (flashcardPromptUsed t c) with
      | none => Except.error (GenError.emptyModelResponse
          "Keine gültige KI-Antwort (Flashcards).")
      | some aiTextResponse => flashcardHandleReply aiTextResponse (clampCards c) := by
  simp only [generateFlashcardsAI]
  rw [if_neg (by simp : ¬(true = false)), if_neg (flashGuardFalse t h)]

theorem generateQuizAI_main (t : String) (c : Int) (m : String → Option String)
    (h : 50 ≤ (jsTrim t).length) :
    generateQuizAI true t c m =
      match m (quizPromptUsed t c) with
      | none => Except.error (GenError.emptyModelResponse
          "Keine gültige Quiz-Antwort von der KI erhalten.")
      | some aiTextResponse => quizHandleReply aiTextResponse (clampQuiz c) := by
  simp only [generateQuizAI]
  rw [if_neg (by simp : ¬(true = false)), if_neg (quizGuardFalse t h)]

theorem generateFlashcardsAI_const (t : String) (c : Int) (r : String)
    (h : 10 ≤ (jsTrim t).length) :
    generateFlashcardsAI true t c (fun _ => some r)
      = flashcardHandleReply r (clampCards c) := by
  rw [generateFlashcardsAI_main t c (fun _ => some r) h]

theorem generateQuizAI_const (t : String) (c : Int) (r : String)
    (h : 50 ≤ (jsTrim t).length) :
    generateQuizAI true t c (fun _ => some r)
      = quizHandleReply r (clampQuiz c) := by
  rw [generateQuizAI_main t c (fun _ => some r) h]

theorem flashcardHandleReply_length (r : String) (n : Int) (l : List Json)
    (h : flashcardHandleReply r n = Except.ok l) : l.length ≤ n.toNat := by
  unfold flashcardHandleReply at h
  cases hx : extractJsonArrayString r with
  | none => rw [hx] at h; cases h
  | some j =>
    rw [hx] at h
    simp only [] at h
    unfold flashcardAfterParse at h
    cases hp : jsonParse j with
    | none => rw [hp] at h; cases h
    | some v =>
      rw [hp] at h
      cases v <;> simp only [] at h <;> cases h
      rw [List.length_take]
      exact Nat.min_le_left _ _

theorem quizHandleReply_length (r : String) (n : Int) (l : List Json)
    (h : quizHandleReply r n = Except.ok l) : l.length ≤ n.toNat := by
  unfold quizHandleReply at h
  cases hx : extractJsonArrayString r with
  | none => rw [hx] at h; cases h
  | some j =>
    rw [hx] at h
    simp only [] at h
    unfold quizAfterParse at h
    cases hp : jsonParse j with
    | none => rw [hp] at h; cases h
    | some v =>
      rw [hp] at h
      cases v <;> simp only [] at h <;> try cases h
      rename_i xs
      cases hs : quizShapeCheck xs with
      | error u => rw [hs] at h; cases h
      | ok w =>
        rw [hs] at h
        simp only [] at h
        injection h with h
        subst h
        rw [List.length_take]
        exact Nat.min_le_left _ _

theorem isOk_flashcardHandleReply (r : String) (n n2 : Int) :
    isOkE (flashcardHandleReply r n) = isOkE (flashcardHandleReply r n2) := by
  unfold flashcardHandleReply
  cases extractJsonArrayString r with
  | none => rfl
  | some j =>
    simp only []
    unfold flashcardAfterParse
    cases jsonParse j with
    | none => rfl
    | some v => cases v <;> (simp only []; try rfl)

theorem isOk_quizHandleReply (r : String) (n n2 : Int) :
    isOkE (quizHandleReply r n) = isOkE (quizHandleReply r n2) := by
  unfold quizHandleReply
  cases extractJsonArrayString r with
  | none => rfl
  | some j =>
    simp only []
    unfold quizAfterParse
    cases jsonParse j with
    | none => rfl
    | some v =>
      cases v <;> (simp only []; try rfl)
      case arr xs => cases quizShapeCheck xs <;> rfl

theorem clampCards_bounds (c : Int) : 3 ≤ clampCards c ∧ clampCards c ≤ 25 := by
  unfold clampCards
  constructor
  · exact le_max_left 3 _
  · exact max_le (by norm_num) (min_le_left 25 c)

theorem clampQuiz_bounds (q : Int) : 3 ≤ clampQuiz q ∧ clampQuiz q ≤ 15 := by
  unfold clampQuiz
  constructor
  · exact le_max_left 3 _
  · exact max_le (by norm_num) (min_le_left 15 q)

theorem firstIdxChar_some_split (c : Char) (l : List Char) (i : Nat)
    (h : firstIdxChar c l = some i) :
    ∃ a b, l = a ++ c :: b ∧ a.length = i ∧ c ∉ a := by
  induction l generalizing i with
  | nil => cases h
  | cons x l ih =>
    by_cases hx : x = c
    · subst hx
      simp only [firstIdxChar, if_pos rfl] at h
      injection h with h
      subst h
      exact ⟨[], l, rfl, rfl, by simp⟩
    · simp only [firstIdxChar, if_neg hx] at h
      obtain ⟨i2, hi2, hmap⟩ := Option.map_eq_some'.mp h
      subst hmap
      obtain ⟨a, b, rfl, rfl, hni⟩ := ih i2 hi2
      refine ⟨x :: a, b, rfl, by simp, ?_⟩
      intro hmem
      rcases List.mem_cons.mp hmem with hcx | hca
      · exact hx hcx.symm
      · exact hni hca

theorem firstIdxChar_le_of_split (c : Char) (a b : List Char) :
    ∃ i, firstIdxChar c (a ++ c :: b) = some i ∧ i ≤ a.length := by
  induction a with
  | nil => exact ⟨0, by simp [firstIdxChar], Nat.zero_le _⟩
  | cons x a ih =>
    by_cases hx : x = c
    · exact ⟨0, by simp [firstIdxChar, hx], Nat.zero_le _⟩
    · obtain ⟨i, hi, hle⟩ := ih
      refine ⟨i + 1, ?_, ?_⟩
      · simp only [List.cons_append, firstIdxChar, if_neg hx, List.append_eq, hi,
          Option.map_some']
      · simp only [List.length_cons]
        omega

theorem lastIdxChar_some_split (c : Char) (l : List Char) (k : Nat)
    (h : lastIdxChar c l = some k) :
    ∃ a b, l = a ++ c :: b ∧ a.length = k ∧ c ∉ b := by
  unfold lastIdxChar at h
  obtain ⟨i, hi, hmap⟩ := Option.map_eq_some'.mp h
  subst hmap
  obtain ⟨a2, b2, hsplit, hlen, hnot⟩ := firstIdxChar_some_split c l.reverse i hi
  have hl : l = b2.reverse ++ c :: a2.reverse := by
    have h2 := congrArg List.reverse hsplit
    rw [List.reverse_reverse] at h2
    rw [h2]
    simp
  have hlen2 : l.length = i + 1 + b2.length := by
    have h3 := congrArg List.length hsplit
    simp only [List.length_reverse, List.length_append, List.length_cons] at h3
    omega
  refine ⟨b2.reverse, a2.reverse, hl, ?_, ?_⟩
  · simp only [List.length_reverse]
    omega
  · intro hmem
    exact hnot (by simpa using hmem)

theorem lastIdxChar_ge_of_split (c : Char) (a b : List Char) :
    ∃ k, lastIdxChar c (a ++ c :: b) = some k ∧ a.length ≤ k := by
  obtain ⟨i, hi, hle⟩ := firstIdxChar_le_of_split c b.reverse a.reverse
  have hrev : (a ++ c :: b).reverse = b.reverse ++ c :: a.reverse := by simp
  refine ⟨(a ++ c :: b).length - 1 - i, ?_, ?_⟩
  · unfold lastIdxChar
    rw [hrev, hi, Option.map_some']
  · simp only [List.length_append, List.length_cons]
    simp only [List.length_reverse] at hle
    omega

theorem extractJsonArrayString_some_split (s j : String)
    (h : extractJsonArrayString s = some j) :
    ∃ a m b, s.data = a ++ '[' :: (m ++ ']' :: b) ∧ '[' ∉ a ∧ ']' ∉ b ∧
      j.data = '[' :: (m ++ [']']) := by
  simp only [extractJsonArrayString, jsIndexOfChar, jsLastIndexOfChar] at h
  cases hf : firstIdxChar '[' s.data with
  | none => rw [hf] at h; simp at h
  | some i =>
    cases hl : lastIdxChar ']' s.data with
    | none => rw [hf, hl] at h; simp at h
    | some k =>
      rw [hf, hl] at h
      simp only [] at h
      split at h
      · cases h
      · rename_i hcond
        push_neg at hcond
        have hik : i ≤ k := by exact_mod_cast hcond.2.2
        injection h with h
        subst h
        obtain ⟨a, b1, hs1, hl1, hni1⟩ := firstIdxChar_some_split '[' s.data i hf
        obtain ⟨a2, b2, hs2, hl2, hni2⟩ := lastIdxChar_some_split ']' s.data k hl
        have hd1 : s.data.drop i = '[' :: b1 := by
          rw [hs1, ← hl1]
          exact List.drop_left a ('[' :: b1)
        have hd2 : s.data.drop k = ']' :: b2 := by
          rw [hs2, ← hl2]
          exact List.drop_left a2 (']' :: b2)
        have hik2 : i ≠ k := by
          intro he
          rw [he, hd2] at hd1
          injection hd1 with hc
          exact absurd hc (by decide)
        have hiklt : i < k := lt_of_le_of_ne hik hik2
        have hd3 : b1.drop (k - i - 1) = ']' :: b2 := by
          have e1 : s.data.drop k = (s.data.drop i).drop (k - i) := by
            rw [List.drop_drop]
            congr 1
            omega
          rw [hd1, hd2] at e1
          have e2 : ('[' :: b1).drop (k - i) = b1.drop (k - i - 1) := by
            obtain ⟨d, hd⟩ : ∃ d, k - i = d + 1 := ⟨k - i - 1, by omega⟩
            rw [hd, List.drop_succ_cons]
            all_goals congr 1
          rw [e2] at e1
          exact e1.symm
        have hlenb1 : k - i - 1 ≤ b1.length := by
          have e4 := congrArg List.length hd3
          simp only [List.length_drop, List.length_cons] at e4
          omega
        generalize hmm : b1.take (k - i - 1) = mm
        have hb1 : b1 = mm ++ ']' :: b2 := by
          rw [← hmm, ← hd3]
          exact (List.take_append_drop _ _).symm
        have hmml : mm.length = k - i - 1 := by
          rw [← hmm, List.length_take]
          omega
        refine ⟨a, mm, b2, ?_, hni1, hni2, ?_⟩
        · rw [hs1, hb1]
        · have hj : (jsSubstring s ((i : Int)).toNat (((k : Int)).toNat + 1)).data
              = (s.data.drop i).take (k + 1 - i) := by
            simp only [jsSubstring, Int.toNat_natCast]
          rw [hj, hd1]
          have e5 : k + 1 - i = (k - i) + 1 := by omega
          rw [e5, List.take_succ_cons]
          congr 1
          conv_lhs => rw [hb1]
          have e6 : k - i = mm.length + 1 := by omega
          rw [e6, List.take_append 1]
          rfl

theorem extractJsonArrayString_isSome_of_pair (s : String) (a m b : List Char)
    (h : s.data = a ++ '[' :: (m ++ ']' :: b)) :
    ∃ j, extractJsonArrayString s = some j := by
  obtain ⟨i, hi, hile⟩ := firstIdxChar_le_of_split '[' a (m ++ ']' :: b)
  obtain ⟨k, hk, hkge⟩ := lastIdxChar_ge_of_split ']' (a ++ '[' :: m) b
  have hassoc : (a ++ '[' :: m) ++ ']' :: b = a ++ '[' :: (m ++ ']' :: b) := by
    simp
  rw [hassoc] at hk
  rw [← h] at hi hk
  have hik : i < k := by
    simp only [List.length_append, List.length_cons] at hkge
    omega
  refine ⟨jsSubstring s i (k + 1), ?_⟩
  simp only [extractJsonArrayString, jsIndexOfChar, jsLastIndexOfChar, hi, hk]
  rw [if_neg]
  · simp only [Int.toNat_natCast]
  · push_neg
    refine ⟨by omega, by omega, by omega⟩

theorem dropWhile_replicate_not {p : Char → Bool} {a : Char} (h : p a = false) (n : Nat) :
    List.dropWhile p (List.replicate n a) = List.replicate n a := by
  cases n with
  | zero => rfl
  | succ n => simp [List.replicate_succ, List.dropWhile_cons, h]

theorem jsTrim_allA (n : Nat) :
    jsTrim (String.mk (List.replicate n 'a')) = String.mk (List.replicate n 'a') := by
  unfold jsTrim
  have ha : jsWhitespace 'a' = false := by decide
  rw [dropWhile_replicate_not ha, List.reverse_replicate, dropWhile_replicate_not ha,
    List.reverse_replicate]

theorem longText25001_length : longText25001.length = 25001 := by
  show (List.replicate 25001 'a').length = 25001
  rw [List.length_replicate]

theorem longText25001_trim_length : (jsTrim longText25001).length = 25001 := by
  show (jsTrim (String.mk (List.replicate 25001 'a'))).length = 25001
  rw [jsTrim_allA]
  show (List.replicate 25001 'a').length = 25001
  rw [List.length_replicate]

theorem quizShapeCheck_ok_of_headNotNull (xs : List Json) (h : headNotNull xs = true) :
    ∃ w, quizShapeCheck xs = Except.ok w := by
  cases xs with
  | nil => exact ⟨false, rfl⟩
  | cons q l =>
    cases q with
    | null => simp [headNotNull] at h
    | bool b => exact ⟨_, rfl⟩
    | num n => exact ⟨_, rfl⟩
    | str s => exact ⟨_, rfl⟩
    | arr a => exact ⟨_, rfl⟩
    | obj o => exact ⟨_, rfl⟩

theorem flashcardHandleReply_some (r j : String) (n : Int)
    (hx : extractJsonArrayString r = some j) :
    flashcardHandleReply r n = flashcardAfterParse (jsonParse j) n := by
  unfold flashcardHandleReply
  rw [hx]

theorem flashcardHandleReply_none (r : String) (n : Int)
    (hx : extractJsonArrayString r = none) :
    flashcardHandleReply r n = Except.error (GenError.malformedResponse
      "KI-Antwort (Flashcards) nicht lesbar: KI-Antwort (Flashcards) ohne JSON-Array.") := by
  unfold flashcardHandleReply
  rw [hx]

theorem quizHandleReply_some (r j : String) (n : Int)
    (hx : extractJsonArrayString r = some j) :
    quizHandleReply r n = quizAfterParse (jsonParse j) n := by
  unfold quizHandleReply
  rw [hx]

theorem quizHandleReply_none (r : String) (n : Int)
    (hx : extractJsonArrayString r = none) :
    quizHandleReply r n = Except.error (GenError.malformedResponse
      "Konnte das Quiz aus der KI-Antwort nicht korrekt extrahieren: KI-Antwort (Quiz) ohne JSON-Array.") := by
  unfold quizHandleReply
  rw [hx]

theorem flashcardHandleReply_ok (r j : String) (xs : List Json) (n : Int)
    (hx : extractJsonArrayString r = some j) (hp : jsonParse j = some (Json.arr xs)) :
    flashcardHandleReply r n = Except.ok (xs.take n.toNat) := by
  rw [flashcardHandleReply_some r j n hx]
  unfold flashcardAfterParse
  rw [hp]

theorem quizHandleReply_ok (r j : String) (xs : List Json) (n : Int)
    (hx : extractJsonArrayString r = some j) (hp : jsonParse j = some (Json.arr xs))
    (hh : headNotNull xs = true) :
    quizHandleReply r n = Except.ok (xs.take n.toNat) := by
  rw [quizHandleReply_some r j n hx]
  unfold quizAfterParse
  rw [hp]
  simp only []
  obtain ⟨w, hw⟩ := quizShapeCheck_ok_of_headNotNull xs hh
  rw [hw]

theorem extractJsonArrayString_none_iff (s : String) :
    extractJsonArrayString s = none ↔
      ¬ ∃ a m b, s.data = a ++ '[' :: (m ++ ']' :: b) := by
  constructor
  · intro h hex
    obtain ⟨a, m, b, hd⟩ := hex
    obtain ⟨j, hj⟩ := extractJsonArrayString_isSome_of_pair s a m b hd
    rw [h] at hj
    cases hj
  · intro h
    cases hx : extractJsonArrayString s with
    | none => rfl
    | some j =>
      obtain ⟨a, m, b, hd, _, _, _⟩ := extractJsonArrayString_some_split s j hx
      exact absurd ⟨a, m, b, hd⟩ h

/-! Claim theorems. -/

/-- Claim C1: for every requested flashcard count c, the count used by
generateFlashcardsAI equals max(3, min(25, c)) and lies in [3, 25]; for
every requested quiz count q, the count used by generateQuizAI equals
max(3, min(15, q)) and lies in [3, 15]; success or failure of a call never
depends on the requested count (the request is never rejected for an
out-of-range count, given the same model reply), and the returned
sequence's length never exceeds the clamped count. -/
theorem counts_clamped_C1 (c q c2 q2 : Int) (t : String)
    (m : String → Option String) (r : String) :
    (clampCards c = max 3 (min 25 c) ∧ 3 ≤ clampCards c ∧ clampCards c ≤ 25) ∧
    (clampQuiz q = max 3 (min 15 q) ∧ 3 ≤ clampQuiz q ∧ clampQuiz q ≤ 15) ∧
    (∀ l, generateFlashcardsAI true t c m = Except.ok l →
      l.length ≤ (clampCards c).toNat) ∧
    (∀ l, generateQuizAI true t q m = Except.ok l →
      l.length ≤ (clampQuiz q).toNat) ∧
    isOkE (generateFlashcardsAI true t c (fun _ => some r))
      = isOkE (generateFlashcardsAI true t c2 (fun _ => some r)) ∧
    isOkE (generateQuizAI true t q (fun _ => some r))
      = isOkE (generateQuizAI true t q2 (fun _ => some r)) := by
  refine ⟨⟨rfl, (clampCards_bounds c).1, (clampCards_bounds c).2⟩,
    ⟨rfl, (clampQuiz_bounds q).1, (clampQuiz_bounds q).2⟩, ?_, ?_, ?_, ?_⟩
  · intro l h
    by_cases hg : 10 ≤ (jsTrim t).length
    · rw [generateFlashcardsAI_main t c m hg] at h
      cases hm : m (flashcardPromptUsed t c) with
      | none => rw [hm] at h; cases h
      | some rr =>
        rw [hm] at h
        simp only [] at h
        exact flashcardHandleReply_length rr (clampCards c) l h
    · push_neg at hg
      rw [generateFlashcardsAI_guard t c m hg] at h
      injection h with h
      subst h
      have h3 := (clampCards_bounds c).1
      simp only [List.length_cons, List.length_nil]
      omega
  · intro l h
    by_cases hg : 50 ≤ (jsTrim t).length
    · rw [generateQuizAI_main t q m hg] at h
      cases hm : m (quizPromptUsed t q) with
      | none => rw [hm] at h; cases h
      | some rr =>
        rw [hm] at h
        simp only [] at h
        exact quizHandleReply_length rr (clampQuiz q) l h
    · push_neg at hg
      rw [generateQuizAI_guard t q m hg] at h
      injection h with h
      subst h
      simp only [List.length_nil]
      omega
  · by_cases hg : 10 ≤ (jsTrim t).length
    · rw [generateFlashcardsAI_const t c r hg, generateFlashcardsAI_const t c2 r hg]
      exact isOk_flashcardHandleReply r (clampCards c) (clampCards c2)
    · push_neg at hg
      rw [generateFlashcardsAI_guard t c _ hg, generateFlashcardsAI_guard t c2 _ hg]
  · by_cases hg : 50 ≤ (jsTrim t).length
    · rw [generateQuizAI_const t q r hg, generateQuizAI_const t q2 r hg]
      exact isOk_quizHandleReply r (clampQuiz q) (clampQuiz q2)
    · push_neg at hg
      rw [generateQuizAI_guard t q _ hg, generateQuizAI_guard t q2 _ hg]

/-- Witness for counts_clamped_C1 at concrete inputs: a request for one
hundred cards with a two-record reply returns at most the clamped count. -/
theorem counts_clamped_C1_witness :
    [Json.num 1, Json.num 2].length ≤ (clampCards 100).toNat :=
  (counts_clamped_C1 100 100 5 5 longText60 (fun _ => some "[1,2]") "x").2.2.1
    [Json.num 1, Json.num 2] (by rfl)

/-- Claim C2: boundary extraction takes the first left bracket and the
last right bracket; when either is absent or out of order (equivalently,
when the reply has no bracketed substring) both generation functions fail
with exactly the malformed-response error, and otherwise exactly the
inclusive substring between the two positions is handed to the JSON
parse phase. -/
theorem boundary_extraction_C2 (s t : String) (c : Int)
    (h50 : 50 ≤ (jsTrim t).length) :
    (extractJsonArrayString s = none →
      (¬ ∃ a m b, s.data = a ++ '[' :: (m ++ ']' :: b)) ∧
      generateFlashcardsAI true t c (fun _ => some s)
        = Except.error (GenError.malformedResponse
          "KI-Antwort (Flashcards) nicht lesbar: KI-Antwort (Flashcards) ohne JSON-Array.") ∧
      generateQuizAI true t c (fun _ => some s)
        = Except.error (GenError.malformedResponse
          "Konnte das Quiz aus der KI-Antwort nicht korrekt extrahieren: KI-Antwort (Quiz) ohne JSON-Array.")) ∧
    (∀ j, extractJsonArrayString s = some j →
      (∃ a m b, s.data = a ++ '[' :: (m ++ ']' :: b) ∧ '[' ∉ a ∧ ']' ∉ b ∧
        j.data = '[' :: (m ++ [']'])) ∧
      generateFlashcardsAI true t c (fun _ => some s)
        = flashcardAfterParse (jsonParse j) (clampCards c) ∧
      generateQuizAI true t c (fun _ => some s)
        = quizAfterParse (jsonParse j) (clampQuiz c)) := by
  have h10 : 10 ≤ (jsTrim t).length := by omega
  constructor
  · intro hn
    refine ⟨(extractJsonArrayString_none_iff s).mp hn, ?_, ?_⟩
    · rw [generateFlashcardsAI_const t c s h10]
      exact flashcardHandleReply_none s (clampCards c) hn
    · rw [generateQuizAI_const t c s h50]
      exact quizHandleReply_none s (clampQuiz c) hn
  · intro j hj
    refine ⟨extractJsonArrayString_some_split s j hj, ?_, ?_⟩
    · rw [generateFlashcardsAI_const t c s h10]
      exact flashcardHandleReply_some s j (clampCards c) hj
    · rw [generateQuizAI_const t c s h50]
      exact quizHandleReply_some s j (clampQuiz c) hj

/-- Witness for boundary_extraction_C2 at concrete replies: a reply with
no bracket pair fails with the malformed-response error, and a bracketed
reply hands exactly the bracketed substring to the parse phase. -/
theorem boundary_extraction_C2_witness :
    generateFlashcardsAI true longText60 5 (fun _ => some "no array here")
      = Except.error (GenError.malformedResponse
        "KI-Antwort (Flashcards) nicht lesbar: KI-Antwort (Flashcards) ohne JSON-Array.") ∧
    generateQuizAI true longText60 5 (fun _ => some "reply [1, 2] end")
      = quizAfterParse (jsonParse "[1, 2]") (clampQuiz 5) :=
  ⟨((boundary_extraction_C2 "no array here" longText60 5 (by decide)).1 (by rfl)).2.1,
   ((boundary_extraction_C2 "reply [1, 2] end" longText60 5 (by decide)).2 "[1, 2]"
      (by rfl)).2.2⟩

/-- Claim C3: for every input whose trimmed length is below the kind's
minimum (10 for flashcards, 50 for quiz), generation succeeds without
consulting the model oracle: flashcards return exactly one placeholder
record and the quiz returns the empty sequence. -/
theorem short_text_soft_fail_C3 (t : String) (c : Int)
    (m m2 : String → Option String) :
    ((jsTrim t).length < 10 →
      generateFlashcardsAI true t c m = Except.ok [flashcardPlaceholder] ∧
      generateFlashcardsAI true t c m = generateFlashcardsAI true t c m2) ∧
    ((jsTrim t).length < 50 →
      generateQuizAI true t c m = Except.ok [] ∧
      generateQuizAI true t c m = generateQuizAI true t c m2) := by
  constructor
  · intro h
    exact ⟨generateFlashcardsAI_guard t c m h,
      by rw [generateFlashcardsAI_guard t c m h, generateFlashcardsAI_guard t c m2 h]⟩
  · intro h
    exact ⟨generateQuizAI_guard t c m h,
      by rw [generateQuizAI_guard t c m h, generateQuizAI_guard t c m2 h]⟩

/-- Witness for short_text_soft_fail_C3 at a concrete two-character input:
the placeholder record comes back and the model oracle is irrelevant. -/
theorem short_text_soft_fail_C3_witness :
    generateFlashcardsAI true "hi" 7 (fun _ => none)
      = Except.ok [flashcardPlaceholder] ∧
    generateQuizAI true "hi" 7 (fun _ => none)
      = generateQuizAI true "hi" 7 (fun _ => some "[1]") :=
  ⟨((short_text_soft_fail_C3 "hi" 7 (fun _ => none) (fun _ => some "[1]")).1
      (by decide)).1,
   ((short_text_soft_fail_C3 "hi" 7 (fun _ => none) (fun _ => some "[1]")).2
      (by decide)).2⟩

/-- Claim C5: the prompt both generation functions hand to the model embeds
exactly the first 25000 characters of the text when it is longer, and the
unchanged text when it is not; truncation is silent, in that past the
length guard the call reduces to the reply handler, whose success or
failure does not depend on the text at all. -/
theorem silent_truncation_C5 (t : String) (c : Int) (r : String) :
    (jsTake t MAX_TEXT_LENGTH).data = t.data.take 25000 ∧
    (t.length ≤ 25000 → jsTake t MAX_TEXT_LENGTH = t) ∧
    flashcardPromptUsed t c = flashcardPrompt (clampCards c) (jsTake t MAX_TEXT_LENGTH) ∧
    quizPromptUsed t c = quizPrompt (clampQuiz c) (jsTake t MAX_TEXT_LENGTH) ∧
    (10 ≤ (jsTrim t).length →
      generateFlashcardsAI true t c (fun _ => some r)
        = flashcardHandleReply r (clampCards c)) ∧
    (50 ≤ (jsTrim t).length →
      generateQuizAI true t c (fun _ => some r)
        = quizHandleReply r (clampQuiz c)) := by
  refine ⟨rfl, ?_, rfl, rfl, generateFlashcardsAI_const t c r, generateQuizAI_const t c r⟩
  intro h
  have h2 : t.data.take 25000 = t.data := List.take_of_length_le h
  show String.mk ((t.data.drop 0).take (25000 - 0)) = t
  rw [List.drop_zero, Nat.sub_zero, h2]

/-- Witness for silent_truncation_C5 at a 25001-character text. -/
theorem silent_truncation_C5_witness :
    25000 < longText25001.length ∧
    flashcardPromptUsed longText25001 4
      = flashcardPrompt (clampCards 4) (jsTake longText25001 MAX_TEXT_LENGTH) ∧
    generateFlashcardsAI true longText25001 4 (fun _ => some "nope")
      = flashcardHandleReply "nope" (clampCards 4) :=
  ⟨by rw [longText25001_length]; norm_num,
   (silent_truncation_C5 longText25001 4 "nope").2.2.1,
   (silent_truncation_C5 longText25001 4 "nope").2.2.2.2.1
     (by rw [longText25001_trim_length]; norm_num)⟩

/-- Claim C9: for every uploaded file declared text/plain, extractText
always succeeds and returns the UTF-8 decoding of the byte buffer; the
decode-failure branch is unreachable because the conversion is total,
and invalid bytes become replacement characters. -/
theorem textplain_decode_total_C9 (buffer : List UInt8)
    (px dx : List UInt8 → Option String)
    (fetch : String → FetchOutcome) (ch : String → String) :
    extractText (ExtractInput.file "text/plain" buffer) px dx fetch ch
      = Except.ok (String.mk (utf8DecodeReplace buffer)) ∧
    isOkE (extractText (ExtractInput.file "text/plain" buffer) px dx fetch ch) = true ∧
    utf8DecodeReplace [0xFF, 0x41] = [replacementChar, 'A'] :=
  ⟨rfl, rfl, rfl⟩

/-- Claim C10: a count parameter that parses to 0 or does not parse as an
integer yields the kind's default count (15 for flashcards, 5 for quiz)
rather than the clamp minimum of 3, because JavaScript || applies the
default to every falsy parse result, absent parameters included. -/
theorem falsy_count_default_C10 (p : Option String) :
    ((jsParseInt p = some 0 ∨ jsParseInt p = none) →
      apiMaxCards p = 15 ∧ apiNumQuestions p = 5 ∧
      clampCards (apiMaxCards p) = 15 ∧ clampQuiz (apiNumQuestions p) = 5 ∧
      apiMaxCards p ≠ 3 ∧ apiNumQuestions p ≠ 3) ∧
    jsParseInt none = none := by
  refine ⟨?_, rfl⟩
  intro h
  have h15 : apiMaxCards p = 15 := by
    unfold apiMaxCards jsOrDefault
    rcases h with h | h <;> (rw [h]; try simp)
  have h5 : apiNumQuestions p = 5 := by
    unfold apiNumQuestions jsOrDefault
    rcases h with h | h <;> (rw [h]; try simp)
  rw [h15, h5]
  exact ⟨rfl, rfl, by decide, by decide, by decide, by decide⟩

/-- Witness for falsy_count_default_C10 at the parameter string 0. -/
theorem falsy_count_default_C10_witness :
    apiMaxCards (some "0") = 15 ∧ apiNumQuestions (some "0") = 5 :=
  ⟨((falsy_count_default_C10 (some "0")).1 (Or.inl rfl)).1,
   ((falsy_count_default_C10 (some "0")).1 (Or.inl rfl)).2.1⟩

/-- Claim C4 counterexample: the binary-extension regular expression is
anchored at the end of the whole URL string, not of its path.  For a URL
whose path ends in .mp4 but which carries a query string, the fetch oracle
is consulted (two oracles give two different results) and the value
returned is fetched content that does not contain the URL. -/
theorem binary_url_shortcircuit_C4_counterexample :
    specPathEndsInBinaryExt "http://example.com/movie.mp4?download=1" = true ∧
    urlHasBinaryExt "http://example.com/movie.mp4?download=1" = false ∧
    extractText (ExtractInput.url "http://example.com/movie.mp4?download=1")
      (fun _ => none) (fun _ => none)
      (fun _ => FetchOutcome.resp 200 (some "text/plain") "AAA" true) (fun _ => "")
      = Except.ok "AAA" ∧
    extractText (ExtractInput.url "http://example.com/movie.mp4?download=1")
      (fun _ => none) (fun _ => none)
      (fun _ => FetchOutcome.resp 200 (some "text/plain") "BBB" true) (fun _ => "")
      = Except.ok "BBB" ∧
    (∀ pre suf : String,
      "AAA" ≠ pre ++ "http://example.com/movie.mp4?download=1" ++ suf) := by
  refine ⟨by decide, by decide, rfl, rfl, ?_⟩
  intro pre suf h
  have h2 := congrArg String.length h
  simp only [String.length_append] at h2
  have h3 : ("http://example.com/movie.mp4?download=1" : String).length = 39 := rfl
  have h4 : ("AAA" : String).length = 3 := rfl
  rw [h3, h4] at h2
  omega

/-- Claim C4 (amended): for every URL beginning with http whose whole
string ends, case-insensitively, in one of the known binary extensions,
extractText performs no fetch (the result is the same for every fetch and
cheerio oracle) and returns as a success a placeholder string containing
the URL. -/
theorem binary_url_shortcircuit_C4 (url : String)
    (px dx px2 dx2 : List UInt8 → Option String)
    (f f2 : String → FetchOutcome) (ch ch2 : String → String)
    (hs : jsStartsWith url "http" = true) (hb : urlHasBinaryExt url = true) :
    extractText (ExtractInput.url url) px dx f ch
      = Except.ok ("[Binärdatei (" ++ url ++ ")]") ∧
    extractText (ExtractInput.url url) px dx f ch
      = extractText (ExtractInput.url url) px2 dx2 f2 ch2 ∧
    ∃ pre suf, "[Binärdatei (" ++ url ++ ")]" = pre ++ url ++ suf := by
  have hne : ¬(url = "" ∨ jsStartsWith url "http" = false) := by
    rintro (rfl | hfalse)
    · exact absurd hs (by decide)
    · rw [hs] at hfalse
      cases hfalse
  have key : ∀ (g : String → FetchOutcome) (cc : String → String),
      extractTextUrl url g cc = Except.ok ("[Binärdatei (" ++ url ++ ")]") := by
    intro g cc
    unfold extractTextUrl
    rw [if_neg hne, if_pos hb]
  exact ⟨key f ch, (key f ch).trans (key f2 ch2).symm,
    ⟨"[Binärdatei (", ")]", rfl⟩⟩

/-- Witness for binary_url_shortcircuit_C4 at a concrete uppercase-PNG URL. -/
theorem binary_url_shortcircuit_C4_witness :
    extractText (ExtractInput.url "http://x.io/a.PNG") (fun _ => none) (fun _ => none)
      (fun _ => FetchOutcome.timeout) (fun _ => "")
      = Except.ok "[Binärdatei (http://x.io/a.PNG)]" :=
  (binary_url_shortcircuit_C4 "http://x.io/a.PNG" (fun _ => none) (fun _ => none)
    (fun _ => none) (fun _ => none) (fun _ => FetchOutcome.timeout)
    (fun _ => FetchOutcome.timeout) (fun _ => "") (fun _ => "")
    (by decide) (by decide)).1

/-- Claim C6 counterexample: with a requested count of 1 and a four-record
reply, the flashcard function returns three records, because slicing uses
the clamped count, which exceeds the originally requested count. -/
theorem returned_prefix_C6_counterexample :
    generateFlashcardsAI true longText60 1 (fun _ => some "[1,2,3,4]")
      = Except.ok [Json.num 1, Json.num 2, Json.num 3] ∧
    1 < [Json.num 1, Json.num 2, Json.num 3].length := ⟨rfl, by norm_num⟩

/-- Claim C6 (amended): for every successfully parsed model reply array,
the sequence returned by each generation function is a prefix of the parsed
array whose length never exceeds the clamped count max(3, min(kindMax,
requested)) — not the originally requested count, which the clamped count
exceeds when fewer than 3 records are requested. -/
theorem returned_prefix_C6 (t s j : String) (xs : List Json) (c : Int)
    (h50 : 50 ≤ (jsTrim t).length)
    (hx : extractJsonArrayString s = some j)
    (hp : jsonParse j = some (Json.arr xs)) :
    (∃ l rest, generateFlashcardsAI true t c (fun _ => some s) = Except.ok l ∧
      xs = l ++ rest ∧ l.length ≤ (clampCards c).toNat) ∧
    (headNotNull xs = true →
      ∃ l rest, generateQuizAI true t c (fun _ => some s) = Except.ok l ∧
        xs = l ++ rest ∧ l.length ≤ (clampQuiz c).toNat) := by
  have h10 : 10 ≤ (jsTrim t).length := by omega
  constructor
  · refine ⟨xs.take (clampCards c).toNat, xs.drop (clampCards c).toNat, ?_, ?_, ?_⟩
    · rw [generateFlashcardsAI_const t c s h10]
      exact flashcardHandleReply_ok s j xs (clampCards c) hx hp
    · exact (List.take_append_drop _ _).symm
    · rw [List.length_take]
      exact Nat.min_le_left _ _
  · intro hh
    refine ⟨xs.take (clampQuiz c).toNat, xs.drop (clampQuiz c).toNat, ?_, ?_, ?_⟩
    · rw [generateQuizAI_const t c s h50]
      exact quizHandleReply_ok s j xs (clampQuiz c) hx hp hh
    · exact (List.take_append_drop _ _).symm
    · rw [List.length_take]
      exact Nat.min_le_left _ _

/-- Witness for returned_prefix_C6 at a concrete one-record reply. -/
theorem returned_prefix_C6_witness :
    ∃ l rest, generateFlashcardsAI true longText60 2 (fun _ => some "x[7]y")
      = Except.ok l ∧ [Json.num 7] = l ++ rest ∧ l.length ≤ (clampCards 2).toNat :=
  (returned_prefix_C6 longText60 "x[7]y" "[7]" [Json.num 7] 2 (by decide) rfl rfl).1

/-- Claim C7 counterexample: the inline-text branch returns the input
string unchanged, not trimmed. -/
theorem inline_trim_counterexample_C7 :
    apiGenerateText (some "  hi  ") = Except.ok "  hi  " ∧
    jsTrim "  hi  " = "hi" ∧ "  hi  " ≠ jsTrim "  hi  " :=
  ⟨rfl, rfl, by decide⟩

/-- Claim C7 (amended): for every InlineText input, normalize returns the
input string unchanged (the route only uses the trimmed form to reject
inputs that are empty after trimming, which are rejected as an error and
never passed through), and the inline branch is idempotent. -/
theorem inline_passthrough_C7 (s : String) :
    (jsTrim s ≠ "" → apiGenerateText (some s) = Except.ok s) ∧
    (jsTrim s = "" → apiGenerateText (some s) = Except.error "Kein Text.") ∧
    apiGenerateText none = Except.error "Kein Text." ∧
    extractTextInline (some (extractTextInline (some s))) = extractTextInline (some s) := by
  refine ⟨?_, ?_, rfl, ?_⟩
  · intro h
    unfold apiGenerateText
    simp only []
    rw [if_neg h]
    have hs : s ≠ "" := by
      intro he
      subst he
      exact h rfl
    show Except.ok (extractTextInline (some s)) = Except.ok s
    unfold extractTextInline
    simp only []
    rw [if_neg hs]
  · intro h
    unfold apiGenerateText
    simp only []
    rw [if_pos h]
  · by_cases hs : s = ""
    · subst hs
      rfl
    · have h1 : extractTextInline (some s) = s := by
        unfold extractTextInline
        simp only []
        rw [if_neg hs]
      rw [h1]
      exact h1

/-- Witness for inline_passthrough_C7 at concrete padded and blank inputs. -/
theorem inline_passthrough_C7_witness :
    apiGenerateText (some " abc ") = Except.ok " abc " ∧
    apiGenerateText (some "   ") = Except.error "Kein Text." :=
  ⟨(inline_passthrough_C7 " abc ").1 (by decide),
   (inline_passthrough_C7 "   ").2.1 (by decide)⟩

/-- Claim C8 counterexample: a quiz reply whose single record is JSON null
— a record violating every declared field requirement — makes the call
fail with the malformed-response error, because the validation block reads
a property of the first record and property access on null throws. -/
theorem advisory_validation_C8_counterexample :
    jsonParse "[null]" = some (Json.arr [Json.null]) ∧
    generateQuizAI true longText60 5 (fun _ => some "[null]")
      = Except.error (GenError.malformedResponse
        "Konnte das Quiz aus der KI-Antwort nicht korrekt extrahieren: TypeError: Eigenschaftszugriff auf null.") :=
  ⟨rfl, rfl⟩

/-- Claim C8 (amended): every parsed record is passed through unchanged
regardless of schema violations — unconditionally for flashcards, and for
quizzes whenever the first record is not JSON null; a null first record
makes the quiz call fail because the advisory validation reads a property
of it. -/
theorem advisory_validation_C8 (t s j : String) (xs : List Json) (c : Int)
    (h50 : 50 ≤ (jsTrim t).length)
    (hx : extractJsonArrayString s = some j)
    (hp : jsonParse j = some (Json.arr xs)) :
    generateFlashcardsAI true t c (fun _ => some s)
      = Except.ok (xs.take (clampCards c).toNat) ∧
    (headNotNull xs = true →
      generateQuizAI true t c (fun _ => some s)
        = Except.ok (xs.take (clampQuiz c).toNat)) := by
  have h10 : 10 ≤ (jsTrim t).length := by omega
  constructor
  · rw [generateFlashcardsAI_const t c s h10]
    exact flashcardHandleReply_ok s j xs (clampCards c) hx hp
  · intro hh
    rw [generateQuizAI_const t c s h50]
    exact quizHandleReply_ok s j xs (clampQuiz c) hx hp hh

/-- Witness for advisory_validation_C8: a reply whose records violate the
declared quiz schema (a question field that is a number, no options, a
bare number as second record) is returned unchanged. -/
theorem advisory_validation_C8_witness :
    generateQuizAI true longText60 9
      (fun _ => some "ok [\x7b\"question\":5\x7d, 7] done")
      = Except.ok [Json.obj [("question", Json.num 5)], Json.num 7] :=
  (advisory_validation_C8 longText60 "ok [\x7b\"question\":5\x7d, 7] done"
    "[\x7b\"question\":5\x7d, 7]" [Json.obj [("question", Json.num 5)], Json.num 7] 9
    (by decide) rfl rfl).2 rfl

end FlashLearn
